import Mathlib

/-!
Verification of the theory_engine harmonic-analysis core.

The definitions below are a shallow embedding of the TypeScript sources in
`src/lib/theory-core` (`analysis.ts`, `tension.ts`, `classify.ts`,
`convert.ts`, `palette.ts`, `transition.ts`) and the circle-of-fifths module.
JavaScript numbers are modelled as rationals, JavaScript strings as Lean
strings.  Calls into the external `tonal` music-theory library are either
modelled from the specification's collaborator contract (roman-numeral
parsing, pitch-class chroma, major-key tables) or kept as explicit function
parameters where the specification does not constrain them.
-/

namespace TheoryEngine

/-- Scale modes supported by the engine (from `theory.types.ts`). -/
inductive Mode
  | major
  | minor
  | dorian
  | phrygian
  | lydian
  | mixolydian
  | aeolian
  | locrian
  deriving DecidableEq, Repr

/-- Minor-scale variants (from `theory.types.ts`). -/
inductive MinorVariant
  | natural
  | harmonic
  | melodic
  deriving DecidableEq, Repr

/-- A musical key: tonic pitch-class name, mode, optional minor variant
(from `theory.types.ts`, `BlockKey`). -/
structure BlockKey where
  tonic : String
  mode : Mode
  minorVariant : Option MinorVariant := none
  deriving DecidableEq, Repr

/-- Result of parsing a roman numeral (shape of `parseRoman`'s result in
`convert.ts`: scale degree, quality/chord-type tag, accidental prefix). -/
structure ParsedRoman where
  degree : Nat
  quality : String
  accidentals : String
  deriving DecidableEq, Repr

/-- JavaScript `String.prototype.includes(c)` for a single character,
computed on the character list so that proofs can evaluate it. -/
def strContains (s : String) (c : Char) : Bool :=
  s.data.contains c

/-- JavaScript `String.prototype.startsWith`, computed on character lists. -/
def strStartsWith (s pre : String) : Bool :=
  pre.data.isPrefixOf s.data

/-- JavaScript `String.prototype.slice(n)` (drop the first `n` characters),
computed on character lists. -/
def strDrop (s : String) (n : Nat) : String :=
  ⟨s.data.drop n⟩

/-- Roman-numeral tokens, longest first, each with its scale degree.
Used by the parser model below. -/
def romanTokens : List (String × Nat) :=
  [("VII", 7), ("vii", 7), ("III", 3), ("iii", 3),
   ("VI", 6), ("vi", 6), ("IV", 4), ("iv", 4), ("II", 2), ("ii", 2),
   ("V", 5), ("v", 5), ("I", 1), ("i", 1)]

/-- Modelled from the spec: the external collaborator's roman-numeral parser
(`RomanNumeral.get` of the tonal library, wrapped by `parseRoman` in
`convert.ts`, which is in src/ but delegates the parse itself to tonal).
Per the spec's Parsed Roman Numeral data model: an optional `b`/`#`
accidental prefix, a roman-numeral part giving a degree 1-7 (upper or lower
case), and the remaining text as the quality tag; anything without a
roman-numeral part fails to parse and yields `none`. -/
def parseRoman (roman : String) : Option ParsedRoman :=
  let acc : String :=
    if strStartsWith roman "b" then "b"
    else if strStartsWith roman "#" then "#"
    else ""
  let rest : String := if acc = "" then roman else strDrop roman 1
  match romanTokens.find? (fun p => strStartsWith rest p.1) with
  | some p => some { degree := p.2, quality := strDrop rest p.1.length, accidentals := acc }
  | none => none

/-- Functional-harmony labels: tonic, subdominant, dominant
(from `theory.types.ts`, `FunctionalLabel`). -/
inductive FunctionalLabel
  | T
  | SD
  | D
  deriving DecidableEq, Repr

/-- From `analysis.ts`, `analyzeFunctionalLabel`: secondary chords (those
containing `/`) are dominants; otherwise the parsed degree is mapped through
the per-mode degree table; unparsable chords default to tonic. -/
def analyzeFunctionalLabel (roman : String) (key : BlockKey) : FunctionalLabel :=
  if strContains roman '/' then .D
  else
    match parseRoman roman with
    | none => .T
    | some parsed =>
      let degree := parsed.degree
      if key.mode = .major then
        if degree = 1 ∨ degree = 3 ∨ degree = 6 then .T
        else if degree = 2 ∨ degree = 4 then .SD
        else if degree = 5 ∨ degree = 7 then .D
        else .T
      else if key.mode = .minor then
        if degree = 1 ∨ degree = 3 ∨ degree = 6 then .T
        else if degree = 2 ∨ degree = 4 then .SD
        else if degree = 5 ∨ degree = 7 then .D
        else .T
      else
        if degree = 1 ∨ degree = 3 ∨ degree = 6 then .T
        else if degree = 2 ∨ degree = 4 then .SD
        else if degree = 5 ∨ degree = 7 then .D
        else .T

/-- The C-major key used by several literal test cases. -/
def cMajorKey : BlockKey := { tonic := "C", mode := .major }

/-- Hint pushed by `detectCadences` for a perfect authentic cadence. -/
def pacHint : String := "✓ Perfect Authentic Cadence (V-I) - Strong resolution"

/-- Hint pushed by `detectCadences` for a half cadence. -/
def halfCadenceHint : String :=
  "⚠ Half Cadence - Ends on dominant (unresolved). Consider adding I to resolve."

/-- Hint pushed by `detectCadences` for a plagal cadence. -/
def plagalHint : String := "✓ Plagal Cadence (IV-I) - \"Amen\" cadence"

/-- Hint pushed by `detectCadences` for a deceptive cadence. -/
def deceptiveHint : String := "✓ Deceptive Cadence (V-vi) - Surprise resolution"

/-- Hint pushed by `detectCadences` for a generic authentic cadence. -/
def authenticHint : String := "✓ Authentic Cadence - Dominant to Tonic resolution"

/-- Hint pushed by `detectCadences` when the progression ends on a subdominant. -/
def endsOnSDHint : String :=
  "⚠ Ends on subdominant - Consider V-I or I for stronger resolution"

/-- Hint pushed by `detectCadences` for a tonic-to-tonic ending. -/
def weakTTHint : String :=
  "💡 Weak cadence - Consider adding V before final I for stronger resolution"

/-- Hint pushed by `detectCadences` for an exact ii-V-I three-chord suffix. -/
def iiVIHint : String := "✓ Strong cadence with ii-V-I progression"

/-- From `analysis.ts`, `detectCadences`: examines the last two (and last
three) chords; the first five checks return their single hint immediately,
the remaining checks accumulate hints. -/
def detectCadences (romans : List String) (key : BlockKey) : List String :=
  if romans.length < 2 then []
  else
    let lastTwo := romans.drop (romans.length - 2)
    let lastThree : Option (List String) :=
      if romans.length ≥ 3 then some (romans.drop (romans.length - 3)) else none
    let penultimate := lastTwo.getD 0 ""
    let lastChord := lastTwo.getD 1 ""
    let penultimateFunc := analyzeFunctionalLabel penultimate key
    let finalFunc := analyzeFunctionalLabel lastChord key
    if penultimate = "V" ∧ (lastChord = "I" ∨ lastChord = "i") then
      [pacHint]
    else if finalFunc = .D ∧ (strContains lastChord 'V' ∨ strContains lastChord 'v') then
      [halfCadenceHint]
    else if penultimate = "IV" ∧ lastChord = "I" then
      [plagalHint]
    else if penultimate = "V" ∧ lastChord = "vi" then
      [deceptiveHint]
    else if penultimateFunc = .D ∧ finalFunc = .T then
      [authenticHint]
    else
      let hints := if finalFunc = .SD then [endsOnSDHint] else []
      let hints := hints ++
        (if finalFunc = .T ∧ penultimateFunc = .T then [weakTTHint] else [])
      let hints := hints ++
        (match lastThree with
         | some [third, second, first] =>
           if third = "ii" ∧ second = "V" ∧ first = "I" then [iiVIHint] else []
         | _ => [])
      hints

/-- Origin classification of a chord (from `theory.types.ts`, `OriginTag`). -/
inductive OriginTag
  | diatonic
  | borrowed
  | secondary
  | chromaticMediant
  | custom
  deriving DecidableEq, Repr

/-- Chord classification result (from `theory.types.ts`). -/
structure ChordClassification where
  origin : OriginTag
  quality : String
  deriving DecidableEq, Repr

/-- From `classify.ts`: common borrowed chords in major keys. -/
def BORROWED_IN_MAJOR : List String := ["bIII", "bVI", "bVII", "iv", "iiø7", "bII"]

/-- From `classify.ts`, `getDiatonicRomans`: the diatonic roman-numeral
tables per key (7 triads + 7 sevenths).  In the source, minor with the
melodic variant falls through to the final generic return. -/
def getDiatonicRomans (key : BlockKey) : List String :=
  if key.mode = .major then
    ["I", "ii", "iii", "IV", "V", "vi", "vii°",
     "Imaj7", "ii7", "iii7", "IVmaj7", "V7", "vi7", "viiø7"]
  else if key.mode = .minor ∧
      (key.minorVariant = none ∨ key.minorVariant = some .natural) then
    ["i", "ii°", "III", "iv", "v", "VI", "VII",
     "i7", "iiø7", "IIImaj7", "iv7", "v7", "VImaj7", "VII7"]
  else if key.mode = .minor ∧ key.minorVariant = some .harmonic then
    ["i", "ii°", "III+", "iv", "V", "VI", "vii°",
     "i7", "iiø7", "III+maj7", "iv7", "V7", "VImaj7", "vii°7"]
  else
    ["I", "ii", "iii", "IV", "V", "vi", "vii°"]

/-- From `classify.ts`, `isChromaticMediant`: fixed pattern list matched by
string prefix; the key argument is not consulted. -/
def isChromaticMediant (roman : String) (_key : BlockKey) : Bool :=
  ["bIII", "bVI", "#III", "III", "VI"].any (fun pattern => strStartsWith roman pattern)

/-- From `classify.ts`, `classifyChord`: ordered checks — secondary marker
first (JavaScript `parsed?.quality || 'dominant'` treats a missing parse and
an empty quality alike), then parse failure, then the diatonic table, the
borrowed-in-major list, the chromatic-mediant list, remaining accidentals,
and finally the diatonic default. -/
def classifyChord (roman : String) (key : BlockKey) : ChordClassification :=
  if strContains roman '/' then
    let parsed := parseRoman roman
    { origin := .secondary,
      quality :=
        match parsed with
        | some p => if p.quality = "" then "dominant" else p.quality
        | none => "dominant" }
  else
    match parseRoman roman with
    | none => { origin := .custom, quality := "unknown" }
    | some parsed =>
      let quality := parsed.quality
      let accidentals := parsed.accidentals
      if (getDiatonicRomans key).contains roman then
        { origin := .diatonic, quality }
      else if key.mode = .major ∧ BORROWED_IN_MAJOR.any (fun b => strStartsWith roman b) then
        { origin := .borrowed, quality }
      else if isChromaticMediant roman key then
        { origin := .chromaticMediant, quality }
      else if accidentals ≠ "" then
        { origin := .borrowed, quality }
      else
        { origin := .diatonic, quality }

/-- A point of the tension curve (from `theory.types.ts`, `TensionPoint`). -/
structure TensionPoint where
  bar : Nat
  value : ℚ
  deriving DecidableEq, Repr

/-- From `tension.ts`, `calculateChordTension`: base weight from the
functional label plus weighted additive heuristics, finally capped at 1. -/
def calculateChordTension (roman : String) (index : Nat) (allRomans : List String)
    (key : BlockKey) : ℚ :=
  let func := analyzeFunctionalLabel roman key
  let tension : ℚ :=
    match func with
    | .T => 0.1
    | .SD => 0.4
    | .D => 0.7
  let tension := tension + (if strContains roman 'V' ∨ strContains roman 'v' then 0.2 else 0)
  let tension := tension + (if strContains roman '/' then 0.3 else 0)
  let tension := tension + (if strContains roman 'b' ∨ strContains roman '#' then 0.2 else 0)
  let tension := tension +
    (if strContains roman '°' ∨ strContains roman 'ø' ∨ strContains roman '+' then 0.15 else 0)
  let tension := tension +
    (if index < allRomans.length - 1 then
      let nextChord := allRomans.getD (index + 1) ""
      let nextFunc := analyzeFunctionalLabel nextChord key
      if func = .D ∧ nextFunc = .T then 0.15 else 0
    else 0)
  let tension := tension +
    (match parseRoman roman with
     | some parsed =>
       let distanceFromTonic : ℚ := (((parsed.degree : ℤ) - 1).natAbs : ℚ)
       min (distanceFromTonic / 6) 0.3
     | none => 0)
  min tension 1

/-- From `tension.ts`, `calculateTensionCurve`: one tension point per chord,
bars counted from 0 (one bar per chord). -/
def calculateTensionCurve (romans : List String) (key : BlockKey) : List TensionPoint :=
  romans.enum.map (fun p => { bar := p.1, value := calculateChordTension p.2 p.1 romans key })

/-- The 12 chromatic notes in circle-of-fifths order (from the circle
module's `CIRCLE_OF_FIFTHS_NOTES` constant). -/
def CIRCLE_OF_FIFTHS_NOTES : List String :=
  ["F", "C", "G", "D", "A", "E", "B", "F#", "C#", "G#", "D#", "A#"]

/-- Semitone pitch class of a note letter, `none` for anything else. -/
def letterChroma : Char → Option Nat
  | 'C' => some 0
  | 'D' => some 2
  | 'E' => some 4
  | 'F' => some 5
  | 'G' => some 7
  | 'A' => some 9
  | 'B' => some 11
  | _ => none

/-- Total alteration of a run of accidental characters: each `#` raises by a
semitone, each `b` lowers by one; `none` if any other character appears. -/
def accidentalAlt : List Char → Option Int
  | [] => some 0
  | '#' :: rest => (accidentalAlt rest).map (· + 1)
  | 'b' :: rest => (accidentalAlt rest).map (· - 1)
  | _ => none

/-- Modelled from the spec: the external collaborator's enharmonic
pitch-class test (`Note.chroma` of the tonal library, which is not in src/).
Per the spec, a pitch-class spelling is a letter `A`-`G` followed by
accidentals, and its underlying pitch class is the letter's semitone value
shifted by the accidentals, modulo 12; unrecognized spellings have no
chroma. -/
def noteChroma (note : String) : Option Nat :=
  match note.data with
  | [] => none
  | c :: rest =>
    match letterChroma c, accidentalAlt rest with
    | some l, some a => some ((((l : Int) + a) % 12).toNat)
    | _, _ => none

/-- Helper of `getNotePosition`: index of the first circle note with the
given chroma, or 0 when there is none. -/
def chromaSlot (noteChroma' : Nat) : Nat :=
  match CIRCLE_OF_FIFTHS_NOTES.findIdx? (fun n => noteChroma n == some noteChroma') with
  | some position => position
  | none => 0

/-- From the circle module's `getNotePosition`: look up the note's chroma
(slot 0 for unrecognized spellings) and find the circle position holding an
equal chroma. -/
def getNotePosition (note : String) : Nat :=
  match noteChroma note with
  | none => 0
  | some c => chromaSlot c

/-- Enharmonic spelling policy of the converter (from `convert.ts`). -/
inductive EnharmonicPolicy
  | keySignature
  | flat
  | sharp
  deriving DecidableEq, Repr

/-- From `convert.ts`, `romansToAbsolute`: delegates entirely to the external
`Progression.fromRomanNumerals` collaborator (passed here as a parameter);
the enharmonic policy parameter is accepted but not consulted. -/
def romansToAbsolute (fromRomanNumerals : String → List String → List String)
    (tonic : String) (romans : List String)
    (_enharmonicPolicy : EnharmonicPolicy) : List String :=
  fromRomanNumerals tonic romans

/-- Options record of `buildPalette` (from `palette.ts`). -/
structure PaletteOpts where
  sevenths : Bool
  deriving DecidableEq, Repr

/-- Result shape of the external `Key.majorKey` collaborator as consumed by
`palette.ts`: its lists of diatonic triads and seventh chords. -/
structure MajorKeyData where
  triads : List String
  chords : List String
  deriving DecidableEq, Repr

/-- Modelled from the spec: the external key collaborator (`Key.majorKey` of
the tonal library, which is not in src/).  The spec's palette literal and the
repository documentation give the diatonic chord rows of a major key as the
seven roman numerals with their seventh extensions. -/
def majorKey (_tonic : String) : Option MajorKeyData :=
  some { triads := ["I", "ii", "iii", "IV", "V", "vi", "vii°"],
         chords := ["Imaj7", "ii7", "iii7", "IVmaj7", "V7", "vi7", "viiø7"] }

/-- String name of a mode as used for scale lookups in `palette.ts`. -/
def modeName : Mode → String
  | .major => "major"
  | .minor => "minor"
  | .dorian => "dorian"
  | .phrygian => "phrygian"
  | .lydian => "lydian"
  | .mixolydian => "mixolydian"
  | .aeolian => "aeolian"
  | .locrian => "locrian"

/-- From `palette.ts`, `buildChordFromIntervals`: assemble a chord name from
the root and the intervals (supplied by the external `Interval.distance`
collaborator, passed as `intervalDistance`) when chord detection fails. -/
def buildChordFromIntervals (intervalDistance : String → String → String)
    (root : String) (notes : List String) : String :=
  if notes.length < 3 then root
  else
    let intervals := (notes.drop 1).map (fun note => intervalDistance root note)
    let thirdInterval := intervals.getD 0 ""
    let fifthInterval := intervals.getD 1 ""
    let quality :=
      if thirdInterval = "3M" then ""
      else if thirdInterval = "3m" then "m"
      else ""
    let quality :=
      if fifthInterval = "5d" then "dim"
      else if fifthInterval = "5A" then "+"
      else quality
    let quality :=
      if notes.length ≥ 4 then
        let seventhInterval := intervals.getD 2 ""
        if quality = "dim" then
          if seventhInterval = "7d" then "dim7" else "ø7"
        else if quality = "m" then
          if seventhInterval = "7M" then "mmaj7" else "m7"
        else if quality = "+" then
          if seventhInterval = "7M" then "+maj7" else "+7"
        else
          if seventhInterval = "7M" then "maj7" else "7"
      else quality
    root ++ quality

/-- From `palette.ts`, `detectChordName`: ask the external `Chord.detect`
collaborator (parameter `chordDetect`), prefer a result rooted at the degree
root, and fall back to interval-based construction. -/
def detectChordName (chordDetect : List String → List String)
    (intervalDistance : String → String → String)
    (root : String) (notes : List String) : String :=
  let detected := chordDetect notes
  if detected.length = 0 then buildChordFromIntervals intervalDistance root notes
  else
    match detected.find? (fun chord => strStartsWith chord root) with
    | some rootChord => rootChord
    | none =>
      match detected.getD 0 "" with
      | "" => buildChordFromIntervals intervalDistance root notes
      | first => first

/-- From `palette.ts`, `buildDiatonicChords`: stack thirds on each scale
degree and name the resulting triad or seventh chord. -/
def buildDiatonicChords (chordDetect : List String → List String)
    (intervalDistance : String → String → String)
    (scaleNotes : List String) (includeSevenths : Bool) : List String :=
  (List.range scaleNotes.length).filterMap (fun i =>
    let root := scaleNotes.getD i ""
    let third := scaleNotes.getD ((i + 2) % scaleNotes.length) ""
    let fifth := scaleNotes.getD ((i + 4) % scaleNotes.length) ""
    let seventh := scaleNotes.getD ((i + 6) % scaleNotes.length) ""
    let chordNotes :=
      if includeSevenths then [root, third, fifth, seventh] else [root, third, fifth]
    let chordName := detectChordName chordDetect intervalDistance root chordNotes
    if chordName = "" then none else some chordName)

/-- From `palette.ts`, `buildPalette`: in major mode, take the external
major-key chord tables (adding `maj7` to sevenths lacking a `7`); in every
other mode, derive the scale (external `Scale.get`, parameter `scaleNotes`)
and build diatonic chords from its degrees. -/
def buildPalette (scaleNotes : String → List String)
    (chordDetect : List String → List String)
    (intervalDistance : String → String → String)
    (key : BlockKey) (opts : PaletteOpts) : List String :=
  if key.mode = .major then
    match majorKey key.tonic with
    | none => []
    | some mk =>
      if opts.sevenths then
        mk.chords.map (fun chord => if strContains chord '7' then chord else chord ++ "maj7")
      else
        mk.triads
  else
    let scaleName :=
      if key.mode = .minor then
        if key.minorVariant = some .harmonic then key.tonic ++ " harmonic minor"
        else if key.minorVariant = some .melodic then key.tonic ++ " melodic minor"
        else key.tonic ++ " minor"
      else key.tonic ++ " " ++ modeName key.mode
    let notes := scaleNotes scaleName
    if notes.length = 0 then []
    else buildDiatonicChords chordDetect intervalDistance notes opts.sevenths

/-- Clamp a rational to the closed unit interval, as the specification words
the final step of the tension formula. -/
def clamp01 (x : ℚ) : ℚ := max 0 (min x 1)

/-- The per-chord tension formula exactly as the specification states it:
the clamped sum of the base functional weight, the textual dominant-marker
bonus, the secondary bonus, the accidental bonus, the diminished/augmented
bonus, the dominant-before-tonic anticipation bonus, and the normalized
distance-from-tonic term for the chord's parsed degree.  This definition
follows the specification's words and is compared against
`calculateChordTension`, which is translated from `tension.ts`. -/
def specChordTension (roman : String) (index : Nat) (allRomans : List String)
    (key : BlockKey) (degree : Nat) : ℚ :=
  clamp01 (
    (match analyzeFunctionalLabel roman key with
     | .T => 0.1
     | .SD => 0.4
     | .D => 0.7)
    + (if strContains roman 'V' ∨ strContains roman 'v' then 0.2 else 0)
    + (if strContains roman '/' then 0.3 else 0)
    + (if strContains roman 'b' ∨ strContains roman '#' then 0.2 else 0)
    + (if strContains roman '°' ∨ strContains roman 'ø' ∨ strContains roman '+' then 0.15 else 0)
    + (if index < allRomans.length - 1 ∧ analyzeFunctionalLabel roman key = .D ∧
          analyzeFunctionalLabel (allRomans.getD (index + 1) "") key = .T then 0.15 else 0)
    + min ((((degree : ℤ) - 1).natAbs : ℚ) / 6) 0.3)

/-- Transition kinds (from `theory.types.ts`, `TransitionPlan.type`). -/
inductive TransitionType
  | pivot
  | secondary
  | direct
  deriving DecidableEq, Repr

/-- A modulation plan (from `theory.types.ts`, `TransitionPlan`). -/
structure TransitionPlan where
  type : TransitionType
  chords : List String
  notes : String
  deriving DecidableEq, Repr

/-- From `transition.ts`, `isRelativeKey`: relative major/minor pairs judged
by the external interval collaborator (parameter `intervalDistance`). -/
def isRelativeKey (intervalDistance : String → String → String)
    (key1 key2 : BlockKey) : Bool :=
  if key1.mode = .major ∧ key2.mode = .minor then
    let interval := intervalDistance key1.tonic key2.tonic
    interval = "6M" ∨ interval = "3m"
  else if key1.mode = .minor ∧ key2.mode = .major then
    let interval := intervalDistance key1.tonic key2.tonic
    interval = "3m" ∨ interval = "6M"
  else
    false

/-- From `transition.ts`, `findPivotChords`: relative keys, parallel keys,
then a fixed interval table. -/
def findPivotChords (intervalDistance : String → String → String)
    (fromKey toKey : BlockKey) : List String :=
  let fromTonic := fromKey.tonic
  let toTonic := toKey.tonic
  if isRelativeKey intervalDistance fromKey toKey then ["vi", "IV", "ii"]
  else if fromTonic = toTonic ∧ fromKey.mode ≠ toKey.mode then ["I/i", "iv/IV"]
  else
    match intervalDistance fromTonic toTonic with
    | "5P" => ["V", "I", "vi"]
    | "4P" => ["IV", "I", "ii"]
    | "2M" => ["V", "ii"]
    | "3m" => ["vi", "iii"]
    | _ => []

/-- From `transition.ts`, `getRelativeRoman`: fixed interval-to-roman table,
defaulting to `I`. -/
def getRelativeRoman (intervalDistance : String → String → String)
    (targetNote sourceNote : String) : String :=
  match intervalDistance sourceNote targetNote with
  | "1P" => "I"
  | "2M" => "II"
  | "3M" => "III"
  | "4P" => "IV"
  | "5P" => "V"
  | "6M" => "VI"
  | "7M" => "VII"
  | _ => "I"

/-- From `transition.ts`, `planTransition`: identical keys are a direct
transition with no chords; otherwise suggest up to two pivot chords, or fall
back to a secondary dominant of the target. -/
def planTransition (intervalDistance : String → String → String)
    (fromKey toKey : BlockKey) : TransitionPlan :=
  let fromTonic := fromKey.tonic
  let toTonic := toKey.tonic
  if fromTonic = toTonic ∧ fromKey.mode = toKey.mode then
    { type := .direct, chords := [],
      notes := "Already in the same key - no transition needed." }
  else
    let pivotChords := findPivotChords intervalDistance fromKey toKey
    if pivotChords.length > 0 then
      { type := .pivot, chords := pivotChords.take 2,
        notes := "Pivot chord modulation via " ++ pivotChords.getD 0 "" ++
          ". This chord exists in both " ++ fromTonic ++ " " ++ modeName fromKey.mode ++
          " and " ++ toTonic ++ " " ++ modeName toKey.mode ++ "." }
    else
      let secondaryDominant := "V/" ++ getRelativeRoman intervalDistance toTonic fromTonic
      { type := .secondary, chords := [secondaryDominant],
        notes := "Use secondary dominant " ++ secondaryDominant ++ " to tonicize " ++
          toTonic ++ ". This creates a temporary dominant-tonic relationship." }

/-! ## Theorems -/

/-- Helper: every chroma produced by `noteChroma` is below 12. -/
lemma noteChroma_lt : ∀ (s : String) (c : Nat), noteChroma s = some c → c < 12 := by
  intro s c h
  unfold noteChroma at h
  split at h
  · exact absurd h (by simp)
  · split at h
    · simp only [Option.some_inj] at h
      rename_i l a _ _
      have h1 : (0 : Int) ≤ ((l : Int) + a) % 12 := Int.emod_nonneg _ (by norm_num)
      have h2 : ((l : Int) + a) % 12 < 12 := Int.emod_lt_of_pos _ (by norm_num)
      omega
    · exact absurd h (by simp)

/-- Helper: on chromas 0-11, the circle lookup of `getNotePosition` is
injective (the 12 circle notes realize all 12 chromas). -/
lemma chromaSlot_inj :
    ∀ c1 c2 : Fin 12, (chromaSlot c1.val = chromaSlot c2.val ↔ c1.val = c2.val) := by
  decide

/-- Helper: a single chord's tension is nonnegative. -/
lemma chordTension_nonneg (roman : String) (index : Nat) (allRomans : List String)
    (key : BlockKey) : 0 ≤ calculateChordTension roman index allRomans key := by
  simp only [calculateChordTension]
  refine le_min ?_ (by norm_num)
  refine add_nonneg (add_nonneg (add_nonneg (add_nonneg (add_nonneg (add_nonneg ?_ ?_) ?_) ?_) ?_) ?_) ?_
  · split <;> norm_num
  · split <;> norm_num
  · split <;> norm_num
  · split <;> norm_num
  · split <;> norm_num
  · split
    · split <;> norm_num
    · norm_num
  · split
    · exact le_min (by positivity) (by norm_num)
    · norm_num

/-- Helper: a single chord's tension is at most 1. -/
lemma chordTension_le_one (roman : String) (index : Nat) (allRomans : List String)
    (key : BlockKey) : calculateChordTension roman index allRomans key ≤ 1 := by
  simp only [calculateChordTension]
  exact min_le_right _ _

/-- Helper: for a chord whose roman numeral parses, the implemented tension
computation agrees with the specification's clamped-sum formula. -/
lemma chordTension_eq_spec (roman : String) (index : Nat) (allRomans : List String)
    (key : BlockKey) (p : ParsedRoman) (hp : parseRoman roman = some p) :
    calculateChordTension roman index allRomans key =
      specChordTension roman index allRomans key p.degree := by
  have hant :
      (if index < allRomans.length - 1 then
        (if analyzeFunctionalLabel roman key = FunctionalLabel.D ∧
            analyzeFunctionalLabel (allRomans.getD (index + 1) "") key = FunctionalLabel.T then
          (0.15 : ℚ) else 0)
       else 0) =
      (if index < allRomans.length - 1 ∧ analyzeFunctionalLabel roman key = FunctionalLabel.D ∧
          analyzeFunctionalLabel (allRomans.getD (index + 1) "") key = FunctionalLabel.T then
        (0.15 : ℚ) else 0) := by
    split_ifs <;> tauto
  simp only [calculateChordTension, specChordTension, clamp01, hp]
  rw [hant]
  refine (max_eq_right (le_min ?_ (by norm_num))).symm
  refine add_nonneg (add_nonneg (add_nonneg (add_nonneg (add_nonneg (add_nonneg ?_ ?_) ?_) ?_) ?_) ?_) ?_
  · split <;> norm_num
  · split <;> norm_num
  · split <;> norm_num
  · split <;> norm_num
  · split <;> norm_num
  · split <;> norm_num
  · exact le_min (by positivity) (by norm_num)

/-- Claim C1: for the progression ii, V, I in C major, `detectCadences` is
claimed to return both the perfect-authentic-cadence hint and the "strong
ii-V-I" note.  The code instead returns from the PAC branch immediately, so
only the PAC hint is produced and the ii-V-I note is absent: this theorem
evaluates the code at the failing input. -/
theorem detectCadences_iiVI_dead_at_literal :
    detectCadences ["ii", "V", "I"] cMajorKey = [pacHint] ∧
      iiVIHint ∉ detectCadences ["ii", "V", "I"] cMajorKey := by
  decide

/-- Claim C2: `buildPalette` on the key C major with sevenths disabled
returns exactly the seven diatonic roman numerals, for any behavior of the
external scale, chord-detection and interval collaborators (the major-mode
branch consults only the modelled major-key table). -/
theorem buildPalette_cMajor_literal : ∀ (scaleNotes : String → List String)
    (chordDetect : List String → List String)
    (intervalDistance : String → String → String),
    buildPalette scaleNotes chordDetect intervalDistance cMajorKey { sevenths := false } =
      ["I", "ii", "iii", "IV", "V", "vi", "vii°"] := by
  intro s c d
  rfl

/-- Claim C3: two pitch-class spellings are mapped to the same circle slot
by `getNotePosition` exactly when they are enharmonically equivalent, i.e.
when their underlying chromas agree. -/
theorem getNotePosition_eq_iff_enharmonic : ∀ (s1 s2 : String) (c1 c2 : Nat),
    noteChroma s1 = some c1 → noteChroma s2 = some c2 →
    (getNotePosition s1 = getNotePosition s2 ↔ c1 = c2) := by
  intro s1 s2 c1 c2 h1 h2
  have b1 := noteChroma_lt s1 c1 h1
  have b2 := noteChroma_lt s2 c2 h2
  unfold getNotePosition
  rw [h1, h2]
  exact chromaSlot_inj ⟨c1, b1⟩ ⟨c2, b2⟩

/-- Witness for claim C3: F sharp and G flat share chroma 6, and the
equivalence instantiated there gives equal slots. -/
theorem getNotePosition_eq_iff_enharmonic_witness :
    noteChroma "F#" = some 6 ∧ noteChroma "Gb" = some 6 ∧
      (getNotePosition "F#" = getNotePosition "Gb" ↔ (6 : Nat) = 6) :=
  ⟨by decide, by decide,
    getNotePosition_eq_iff_enharmonic "F#" "Gb" 6 6 (by decide) (by decide)⟩

/-- Claim C4: for every progression and key, the tension value of each chord
(whose roman numeral parses, so that its degree exists) equals the
specification's clamped sum of weighted contributions. -/
theorem tensionCurve_value_eq_spec_formula : ∀ (romans : List String) (key : BlockKey)
    (i : Nat) (roman : String) (p : ParsedRoman),
    romans[i]? = some roman → parseRoman roman = some p →
    (calculateTensionCurve romans key)[i]? =
      some { bar := i, value := specChordTension roman i romans key p.degree } := by
  intro romans key i roman p hget hp
  simp only [calculateTensionCurve, List.getElem?_map, List.getElem?_enum, hget,
    Option.map_some']
  rw [chordTension_eq_spec roman i romans key p hp]

/-- Witness for claim C4: the IV chord of the progression IV, I in C major. -/
theorem tensionCurve_value_eq_spec_formula_witness :
    (["IV", "I"] : List String)[0]? = some "IV" ∧
      parseRoman "IV" = some { degree := 4, quality := "", accidentals := "" } ∧
      (calculateTensionCurve ["IV", "I"] cMajorKey)[0]? =
        some { bar := 0, value := specChordTension "IV" 0 ["IV", "I"] cMajorKey 4 } :=
  ⟨by decide, by decide,
    tensionCurve_value_eq_spec_formula ["IV", "I"] cMajorKey 0 "IV"
      { degree := 4, quality := "", accidentals := "" } (by decide) (by decide)⟩

/-- Claim C5: for every input progression (well-formed or not) and key, the
tension curve has exactly one point per chord, each with a value in the
closed interval from 0 to 1. -/
theorem tensionCurve_length_and_bounds : ∀ (romans : List String) (key : BlockKey),
    (calculateTensionCurve romans key).length = romans.length ∧
      ∀ pt ∈ calculateTensionCurve romans key, 0 ≤ pt.value ∧ pt.value ≤ 1 := by
  intro romans key
  constructor
  · simp [calculateTensionCurve]
  · intro pt hmem
    simp only [calculateTensionCurve, List.mem_map] at hmem
    obtain ⟨p, _hp, rfl⟩ := hmem
    exact ⟨chordTension_nonneg _ _ _ _, chordTension_le_one _ _ _ _⟩

/-- Witness for claim C5: the first tension point of a progression holding a
diatonic chord, a secondary dominant and an unparsable chord is bounded. -/
theorem tensionCurve_length_and_bounds_witness :
    0 ≤ ({ bar := 0, value := calculateChordTension "I" 0 ["I", "V/V", "nonsense"] cMajorKey }
        : TensionPoint).value ∧
      ({ bar := 0, value := calculateChordTension "I" 0 ["I", "V/V", "nonsense"] cMajorKey }
        : TensionPoint).value ≤ 1 :=
  (tensionCurve_length_and_bounds ["I", "V/V", "nonsense"] cMajorKey).2 _
    (by simp [calculateTensionCurve, List.enum, List.enumFrom])

/-- Counterexample for claim C6: the string q/r cannot be parsed, yet
`classifyChord` does not return the custom/unknown classification for it,
because the secondary-marker check precedes the parse-failure check. -/
theorem classifyChord_unparsable_slash_cex :
    parseRoman "q/r" = none ∧
      classifyChord "q/r" cMajorKey ≠ { origin := .custom, quality := "unknown" } := by
  decide

/-- Claim C6 as amended: an unparsable roman numeral is classified
custom/unknown only when it carries no secondary marker; an unparsable
string containing a slash is classified as a secondary dominant. -/
theorem classifyChord_unparsable_amended : ∀ (roman : String) (key : BlockKey),
    parseRoman roman = none →
    classifyChord roman key =
      (if strContains roman '/' then { origin := .secondary, quality := "dominant" }
       else { origin := .custom, quality := "unknown" }) := by
  intro roman key h
  by_cases hc : strContains roman '/'
  · simp only [classifyChord, hc, h, if_pos]
  · simp only [classifyChord, hc, h]

/-- Witness for amended claim C6: the unparsable string zzz is classified
custom/unknown. -/
theorem classifyChord_unparsable_amended_witness :
    parseRoman "zzz" = none ∧
      classifyChord "zzz" cMajorKey =
        (if strContains "zzz" '/' then { origin := .secondary, quality := "dominant" }
         else { origin := .custom, quality := "unknown" }) :=
  ⟨by decide, classifyChord_unparsable_amended "zzz" cMajorKey (by decide)⟩

/-- Claim C7: for every syntactically valid roman numeral and every key, the
total function `classifyChord` yields one of the five defined origins. -/
theorem classifyChord_origin_total : ∀ (roman : String) (key : BlockKey) (p : ParsedRoman),
    parseRoman roman = some p →
    ((classifyChord roman key).origin = .diatonic ∨
     (classifyChord roman key).origin = .borrowed ∨
     (classifyChord roman key).origin = .secondary ∨
     (classifyChord roman key).origin = .chromaticMediant ∨
     (classifyChord roman key).origin = .custom) := by
  intro roman key p _h
  cases h2 : (classifyChord roman key).origin <;> simp

/-- Witness for claim C7: the valid roman numeral bVI in C major. -/
theorem classifyChord_origin_total_witness :
    parseRoman "bVI" = some { degree := 6, quality := "", accidentals := "b" } ∧
      ((classifyChord "bVI" cMajorKey).origin = .diatonic ∨
       (classifyChord "bVI" cMajorKey).origin = .borrowed ∨
       (classifyChord "bVI" cMajorKey).origin = .secondary ∨
       (classifyChord "bVI" cMajorKey).origin = .chromaticMediant ∨
       (classifyChord "bVI" cMajorKey).origin = .custom) :=
  ⟨by decide,
    classifyChord_origin_total "bVI" cMajorKey
      { degree := 6, quality := "", accidentals := "b" } (by decide)⟩

/-- Counterexample for claim C8: a progression ending with lowercase v then
i receives the generic authentic-cadence hint, not the perfect authentic
cadence hint, because the PAC check compares against uppercase V only. -/
theorem detectCadences_lowercase_v_i_cex :
    detectCadences ["v", "i"] cMajorKey = [authenticHint] ∧
      pacHint ∉ detectCadences ["v", "i"] cMajorKey := by
  decide

/-- Claim C8 as amended: every progression whose last two chords are exactly
uppercase V then I (or uppercase V then lowercase i) receives the perfect
authentic cadence hint, and that hint is the entire result, so the check has
priority over all the other cadence checks. -/
theorem detectCadences_pac_uppercase_V : ∀ (romans : List String) (key : BlockKey)
    (lastC : String),
    2 ≤ romans.length →
    romans.drop (romans.length - 2) = ["V", lastC] →
    (lastC = "I" ∨ lastC = "i") →
    detectCadences romans key = [pacHint] := by
  intro romans key lastC hlen hdrop hfin
  have hnot : ¬ (romans.length < 2) := by omega
  simp only [detectCadences, hdrop, if_neg hnot, List.getD]
  simp [hfin]

/-- Witness for amended claim C8: the two-chord progression V, I. -/
theorem detectCadences_pac_uppercase_V_witness :
    (2 ≤ (["V", "I"] : List String).length ∧
        (["V", "I"] : List String).drop ((["V", "I"] : List String).length - 2) = ["V", "I"] ∧
        (("I" : String) = "I" ∨ ("I" : String) = "i")) ∧
      detectCadences ["V", "I"] cMajorKey = [pacHint] :=
  ⟨⟨by decide, by decide, Or.inl rfl⟩,
    detectCadences_pac_uppercase_V ["V", "I"] cMajorKey "I" (by decide) (by decide)
      (Or.inl rfl)⟩

/-- Claim C9: planning a transition from a key to itself yields a direct
plan with an empty chord list, for any behavior of the external interval
collaborator. -/
theorem planTransition_same_key_direct : ∀ (intervalDistance : String → String → String)
    (k : BlockKey),
    planTransition intervalDistance k k =
      { type := .direct, chords := [],
        notes := "Already in the same key - no transition needed." } := by
  intro d k
  simp [planTransition]

/-- Claim C10: the converter's output is entirely independent of the
enharmonic-policy argument, for every tonic, roman-numeral list and external
conversion collaborator. -/
theorem romansToAbsolute_policy_independent :
    ∀ (fromRomanNumerals : String → List String → List String)
      (tonic : String) (romans : List String) (p1 p2 : EnharmonicPolicy),
    romansToAbsolute fromRomanNumerals tonic romans p1 =
      romansToAbsolute fromRomanNumerals tonic romans p2 := by
  intro f t r p1 p2
  rfl

end TheoryEngine
